import Mathlib

/-!
Shallow embedding of the Windows device-discovery and identity-resolution
engine of this repository (src/src/windows_native.rs).

UTF-16 code units and Unicode scalar values are represented as `Nat`
(every unit is < 2^16; machine arithmetic that can wrap in the source
carries an explicit `% 2^32` or `% 2^16`).  The platform (property
fetches and device-tree traversal) is modelled as an explicit
environment of functions, and fallible source code returns `Option` /
`Except`.
-/

/-- Embedding of `char::decode_utf16` over a list of UTF-16 code units,
as consumed by `starts_with_ignore_case` and `extract_int_token_value`:
a unit outside the surrogate range `0xD800..=0xDFFF` decodes to itself,
a high surrogate (`0xD800..=0xDBFF`) followed by a low surrogate
(`0xDC00..=0xDFFF`) decodes to the supplementary scalar value (consuming
both units), and any unpaired surrogate yields an error carrying the
offending unit. -/
def decodeUtf16 : List Nat → List (Except Nat Nat)
  | [] => []
  | [u] => if u < 55296 ∨ 57343 < u then [.ok u] else [.error u]
  | u :: v :: rest =>
    if u < 55296 ∨ 57343 < u then .ok u :: decodeUtf16 (v :: rest)
    else if 56320 ≤ u then .error u :: decodeUtf16 (v :: rest)
    else if 56320 ≤ v ∧ v ≤ 57343 then
      .ok (65536 + (u - 55296) * 1024 + (v - 56320)) :: decodeUtf16 rest
    else .error u :: decodeUtf16 (v :: rest)

/-- Decoding where errors are replaced by `char::REPLACEMENT_CHARACTER`
(U+FFFD), mirroring `.map(|r| r.unwrap_or(char::REPLACEMENT_CHARACTER))`
in `starts_with_ignore_case` (src lines 681-682). -/
def decodeUtf16Lossy (l : List Nat) : List Nat :=
  (decodeUtf16 l).map (fun r => match r with | .ok c => c | .error _ => 65533)

/-- Embedding of `char::to_ascii_lowercase`: ASCII uppercase letters are
shifted into lowercase, every other scalar is unchanged. -/
def asciiLower (c : Nat) : Nat :=
  if 65 ≤ c ∧ c ≤ 90 then c + 32 else c

/-- Embedding of `char::eq_ignore_ascii_case` (used in
`starts_with_ignore_case`, src line 684). -/
def eqIgnoreAsciiCase (a b : Nat) : Bool :=
  asciiLower a = asciiLower b

/-- Embedding of `starts_with_ignore_case` (src lines 678-685): decode
the UTF-16 haystack lossily, zip with the pattern's characters (the
pattern is given as its list of scalar values), and require every
zipped pair to match ASCII-case-insensitively.  `zip` truncates to the
shorter of the two sequences. -/
def starts_with_ignore_case (utf16str : List Nat) (pattern : List Nat) : Bool :=
  ((decodeUtf16Lossy utf16str).zip pattern).all (fun p => eqIgnoreAsciiCase p.1 p.2)

/-- Embedding of `to_upper` (src lines 657-663): every code unit that
fits in a `u8` (≤ 255) is ASCII-uppercased in place, all other units
are unchanged. -/
def to_upper (u16str : List Nat) : List Nat :=
  u16str.map (fun c => if c ≤ 255 ∧ 97 ≤ c ∧ c ≤ 122 then c - 32 else c)

/-- Embedding of `find_first_upper_case` (src lines 665-676): slide an
exact-width window (the pattern's UTF-16 length) over the haystack and
return the index of the first window whose code units equal the
pattern's code units exactly.  The pattern is given as its list of
UTF-16 units.  (For an empty pattern the Rust `windows(0)` would panic;
every call site passes a non-empty token.) -/
def find_first_upper_case (u16str : List Nat) (pattern : List Nat) : Option Nat :=
  (List.range (u16str.length + 1 - pattern.length)).find?
    (fun i => (u16str.drop i).take pattern.length == pattern)

/-- Embedding of `char::to_digit(16)`: decimal digits and the letters
`a`-`f` / `A`-`F` map to their hexadecimal value, everything else to
absence. -/
def to_digit16 (c : Nat) : Option Nat :=
  if 48 ≤ c ∧ c ≤ 57 then some (c - 48)
  else if 97 ≤ c ∧ c ≤ 102 then some (c - 87)
  else if 65 ≤ c ∧ c ≤ 70 then some (c - 55)
  else none

/-- Embedding of the `map_while(|c| c.ok().and_then(|c| c.to_digit(16)))`
stage of `extract_int_token_value` (src lines 690-692): walk the decode
results, keep hex digit values, and stop at the first decode error or
non-hex-digit character. -/
def mapWhileHex : List (Except Nat Nat) → List Nat
  | [] => []
  | .error _ :: _ => []
  | .ok c :: rest =>
    match to_digit16 c with
    | some d => d :: mapWhileHex rest
    | none => []

/-- Embedding of `.reduce(|l, r| l * 16 + r)` (src line 693) on `u32`
digit values: absence on an empty digit list, otherwise a left fold
with wrapping 32-bit arithmetic. -/
def reduceHex : List Nat → Option Nat
  | [] => none
  | d :: rest => some (rest.foldl (fun l r => (l * 16 + r) % 4294967296) d)

/-- Embedding of `extract_int_token_value` (src lines 687-694): find the
token (given as its UTF-16 units), then decode the suffix after the
token and fold the leading run of hexadecimal digits. -/
def extract_int_token_value (u16str : List Nat) (token : List Nat) : Option Nat :=
  (find_first_upper_case u16str token).bind
    (fun p => reduceHex (mapWhileHex (decodeUtf16 (u16str.drop (p + token.length)))))

/-- Embedding of `WcharString` (declared in the crate root, used
throughout src/src/windows_native.rs): a decoded text value, a raw
code-unit fallback, or no value at all. -/
inductive WcharString where
  | String : List Nat → WcharString
  | Raw : List Nat → WcharString
  | None : WcharString
deriving DecidableEq

/-- Embedding of `u16str_to_wstring` (src lines 696-700):
`String::from_utf16` succeeds exactly when decoding yields no error, in
which case the decoded scalar values are kept as text; otherwise the
raw code units are preserved. -/
def u16str_to_wstring (u16str : List Nat) : WcharString :=
  if (decodeUtf16 u16str).all (fun r => r.isOk) then .String (decodeUtf16Lossy u16str)
  else .Raw u16str

/-- Modelled from the spec: the `DeviceInfo` accessor methods
(`manufacturer_string()`, `serial_number()`, `product_string()`) live in
the crate root, which is not under src/.  They return `Option<&str>`
(absence for the raw and none variants), and the resolver steps guard on
`.map_or(true, str::is_empty)` — so a field counts as "still empty" when
it is absent or an empty text string. -/
def isUnsetOrEmpty : WcharString → Bool
  | .String s => s.isEmpty
  | .Raw _ => true
  | .None => true

/-- Modelled from the spec: the public `BusType` enum lives in the crate
root, which is not under src/; per §3 it has exactly the variants
Unknown/Usb/Bluetooth/BluetoothLE/I2c/Spi. -/
inductive BusType where
  | Unknown | Usb | Bluetooth | BluetoothLE | I2c | Spi
deriving DecidableEq

/-- Embedding of the private enum `InternalBuyType` (src lines 633-641),
the bus class produced by the compatible-id scan. -/
inductive InternalBuyType where
  | Unknown | Usb | Bluetooth | BluetoothLE | I2c | Spi
deriving DecidableEq

/-- Embedding of `impl From<InternalBuyType> for BusType`
(src lines 643-654).  Note the BluetoothLE arm. -/
def busTypeOfInternal : InternalBuyType → BusType
  | .Unknown => .Unknown
  | .Usb => .Usb
  | .Bluetooth => .Bluetooth
  | .BluetoothLE => .Bluetooth
  | .I2c => .I2c
  | .Spi => .Spi

/-- Embedding of the `DeviceInfo` record as initialised by
`get_device_info` (src lines 124-136) and mutated by the resolvers.
Strings of UTF-16 units stand for the path; `release_number` is a
`u16`, `interface_number` an `i32`. -/
structure DeviceInfo where
  path : List Nat
  vendor_id : Nat
  product_id : Nat
  serial_number : WcharString
  release_number : Nat
  manufacturer_string : WcharString
  product_string : WcharString
  usage_page : Nat
  usage : Nat
  interface_number : Int
  bus_type : BusType
deriving DecidableEq

/-- Platform environment: one field per (property-key, subject) family
the source queries.  Each `Nat → Option (List Nat)` field abstracts a
`get_devnode_property` call for a fixed `DEVPROPKEY` on a device-tree
node given as the opaque `u32` handle; options model soft failure.
`parent` is `get_dev_node_parent` (src lines 763-769), `locate` is
`CM_Locate_DevNodeW`, and `iface_instance_id` is the
`get_device_interface_property` fetch of `DEVPKEY_Device_InstanceId`
keyed by interface path. -/
structure Platform where
  iface_instance_id : List Nat → Option (List Nat)
  locate : List Nat → Option Nat
  parent : Nat → Option Nat
  instance_id : Nat → Option (List Nat)
  hardware_ids : Nat → Option (List Nat)
  compatible_ids : Nat → Option (List Nat)
  manufacturer : Nat → Option (List Nat)
  bt_manufacturer : Nat → Option (List Nat)
  bt_device_address : Nat → Option (List Nat)
  bt_model_number : Nat → Option (List Nat)
  dev_name : Nat → Option (List Nat)

/-- UTF-16 units of the pattern "USB". -/
def strUSB : List Nat := [85, 83, 66]

/-- UTF-16 units of the pattern "BTHENUM". -/
def strBTHENUM : List Nat := [66, 84, 72, 69, 78, 85, 77]

/-- UTF-16 units of the pattern "BTHLEDEVICE". -/
def strBTHLEDEVICE : List Nat := [66, 84, 72, 76, 69, 68, 69, 86, 73, 67, 69]

/-- UTF-16 units of the pattern "PNP0C50". -/
def strPNP0C50 : List Nat := [80, 78, 80, 48, 67, 53, 48]

/-- UTF-16 units of the pattern "PNP0C51". -/
def strPNP0C51 : List Nat := [80, 78, 80, 48, 67, 53, 49]

/-- UTF-16 units of the token "IG_". -/
def strIG : List Nat := [73, 71, 95]

/-- UTF-16 units of the token "REV_". -/
def strREV : List Nat := [82, 69, 86, 95]

/-- UTF-16 units of the token "MI_". -/
def strMI : List Nat := [77, 73, 95]

/-- Embedding of the per-entry classifier of `get_internal_info`
(src lines 156-172): the guard chain of the `filter_map` closure, with
the five prefixes tried in source order. -/
def matchEntry (id : List Nat) : Option InternalBuyType :=
  if starts_with_ignore_case id strUSB then some .Usb
  else if starts_with_ignore_case id strBTHENUM then some .Bluetooth
  else if starts_with_ignore_case id strBTHLEDEVICE then some .BluetoothLE
  else if starts_with_ignore_case id strPNP0C50 then some .I2c
  else if starts_with_ignore_case id strPNP0C51 then some .Spi
  else none

/-- Embedding of the compatible-id scan of `get_internal_info`
(src lines 154-174): split the raw value at null units, classify each
entry in original order, take the first match, and default to Unknown. -/
def classify_compatible_ids (compatible_ids : List Nat) : InternalBuyType :=
  (((compatible_ids.splitOn 0).filterMap matchEntry).head?).getD .Unknown

/-- Embedding of the `as i32` cast of the extracted `u32` `MI_` value
(src line 212). -/
def u32AsI32 (v : Nat) : Int :=
  if v < 2147483648 then (v : Int) else (v : Int) - 4294967296

/-- Embedding of one iteration of the hardware-id loop in `get_usb_info`
(src lines 203-215): uppercase the entry, then fill `release_number`
from a `REV_` token (truncating `as u16`) if it is still 0, and
`interface_number` from an `MI_` token (cast `as i32`) if it is
still -1. -/
def scan_entry (dev : DeviceInfo) (entry : List Nat) : DeviceInfo :=
  let e := to_upper entry
  let dev :=
    if dev.release_number = 0 then
      match extract_int_token_value e strREV with
      | some release_number => {dev with release_number := release_number % 65536}
      | none => dev
    else dev
  if dev.interface_number = -1 then
    match extract_int_token_value e strMI with
    | some interface_number => {dev with interface_number := u32AsI32 interface_number}
    | none => dev
  else dev

/-- Embedding of the whole hardware-id loop of `get_usb_info`
(src lines 203-215): fold `scan_entry` over the null-separated entries
in original order. -/
def scan_hardware_ids (dev : DeviceInfo) (entries : List (List Nat)) : DeviceInfo :=
  entries.foldl scan_entry dev

/-- Embedding of the Xbox-detection step of `get_usb_info`
(src lines 188-195): if the uppercased instance id carries an `IG_`
token, escalate to the parent (propagating its failure), otherwise stay
on the current node. -/
def usb_xbox_node (pf : Platform) (device_id : List Nat) (dev_node : Nat) : Option Nat :=
  if (extract_int_token_value device_id strIG).isSome then pf.parent dev_node
  else some dev_node

/-- Embedding of the manufacturer fallback of `get_usb_info`
(src lines 217-222): if the manufacturer string is still empty, fetch
the manufacturer property; absence leaves the record unchanged. -/
def usb_manufacturer_step (pf : Platform) (dev : DeviceInfo) (dev_node : Nat) : DeviceInfo :=
  if isUnsetOrEmpty dev.manufacturer_string then
    match pf.manufacturer dev_node with
    | some manufacturer_string =>
      {dev with manufacturer_string := u16str_to_wstring manufacturer_string}
    | none => dev
  else dev

/-- Embedding of `device_id.rsplit(|c| *c != b'&' as u16).next()`
(src lines 241-243): the last segment of an rsplit is the maximal
suffix free of separators, here the trailing run of `&` units. -/
def rsplit_next (p : Nat → Bool) (l : List Nat) : List Nat :=
  (l.reverse.takeWhile (fun c => !(p c))).reverse

/-- Embedding of `Iterator::rposition`: index of the last element
satisfying the predicate. -/
def rposition (l : List Nat) (p : Nat → Bool) : Option Nat :=
  (l.reverse.findIdx? p).map (fun j => l.length - 1 - j)

/-- Embedding of the serial-number start-index computation of
`get_usb_info` (src lines 241-244), exactly as written:
`rsplit` on every unit that is *not* `&` (38), take the last segment,
then `rposition` of the last unit that is *not* `\` (92). -/
def serial_start (device_id : List Nat) : Option Nat :=
  rposition (rsplit_next (fun c => c ≠ 38) device_id) (fun c => c ≠ 92)

/-- Embedding of the serial-number fallback of `get_usb_info`
(src lines 224-248).  Absence models the early `?` returns inside the
block (failed parent escalation or instance-id fetch); a value is the
record to continue with. -/
def usb_serial_step (pf : Platform) (dev : DeviceInfo) (dev_node : Nat) : Option DeviceInfo :=
  if isUnsetOrEmpty dev.serial_number then
    match (if dev.interface_number ≠ -1 then pf.parent dev_node else some dev_node) with
    | none => none
    | some usb_dev_node =>
      match pf.instance_id usb_dev_node with
      | none => none
      | some device_id =>
        match serial_start device_id with
        | some start =>
          some {dev with serial_number := u16str_to_wstring (device_id.drop (start + 1))}
        | none => some dev
  else some dev

/-- Embedding of the final interface-number normalisation of
`get_usb_info` (src lines 250-252). -/
def normalize_interface (dev : DeviceInfo) : DeviceInfo :=
  if dev.interface_number = -1 then {dev with interface_number := 0} else dev

/-- Embedding of `get_usb_info` (src lines 185-255).  The boolean is
`Option<()>.is_some()`: `false` marks an early `?` return, in which
case the record mutated so far is kept (the caller ignores the
option). -/
def get_usb_info (pf : Platform) (dev : DeviceInfo) (dev_node : Nat) : DeviceInfo × Bool :=
  match pf.instance_id dev_node with
  | none => (dev, false)
  | some device_id =>
    match usb_xbox_node pf (to_upper device_id) dev_node with
    | none => (dev, false)
    | some dev_node =>
      match pf.hardware_ids dev_node with
      | none => (dev, false)
      | some hardware_ids =>
        let dev := scan_hardware_ids dev (hardware_ids.splitOn 0)
        let dev := usb_manufacturer_step pf dev dev_node
        match usb_serial_step pf dev dev_node with
        | none => (dev, false)
        | some dev => (normalize_interface dev, true)

/-- Embedding of `get_ble_info` (src lines 261-296): three independent
property fetches (manufacturer, device address as serial, model number
as product), each skipped when the field is already populated, with a
parent display-name fallback for the product string.  The function
always returns `Some(())`, hence no completion flag. -/
def get_ble_info (pf : Platform) (dev : DeviceInfo) (dev_node : Nat) : DeviceInfo :=
  let dev :=
    if isUnsetOrEmpty dev.manufacturer_string then
      match pf.bt_manufacturer dev_node with
      | some manufacturer_string =>
        {dev with manufacturer_string := u16str_to_wstring manufacturer_string}
      | none => dev
    else dev
  let dev :=
    if isUnsetOrEmpty dev.serial_number then
      match pf.bt_device_address dev_node with
      | some serial_number => {dev with serial_number := u16str_to_wstring serial_number}
      | none => dev
    else dev
  if isUnsetOrEmpty dev.product_string then
    match (pf.bt_model_number dev_node).orElse
        (fun _ => (pf.parent dev_node).bind pf.dev_name) with
    | some product_string => {dev with product_string := u16str_to_wstring product_string}
    | none => dev
  else dev

/-- Which identity resolver `get_internal_info` dispatched to. -/
inductive ResolverRan where
  | skipped | usb | ble
deriving DecidableEq

/-- Embedding of `get_internal_info` (src lines 142-183): resolve the
interface's instance id, locate its node, escalate to the parent, fetch
and classify the compatible ids, record the converted bus type, and
dispatch to the matching resolver.  The boolean is the returned
`Option<()>.is_some()`; early aborts leave the record unchanged. -/
def get_internal_info (pf : Platform) (interface_path : List Nat) (dev : DeviceInfo) :
    DeviceInfo × ResolverRan × Bool :=
  match pf.iface_instance_id interface_path with
  | none => (dev, .skipped, false)
  | some device_id =>
    match pf.locate device_id with
    | none => (dev, .skipped, false)
    | some node =>
      match pf.parent node with
      | none => (dev, .skipped, false)
      | some dev_node =>
        match pf.compatible_ids dev_node with
        | none => (dev, .skipped, false)
        | some compatible_ids =>
          let bus_type := classify_compatible_ids compatible_ids
          let dev := {dev with bus_type := busTypeOfInternal bus_type}
          match bus_type with
          | .Usb => ((get_usb_info pf dev dev_node).1, .usb, true)
          | .BluetoothLE => (get_ble_info pf dev dev_node, .ble, true)
          | _ => (dev, .skipped, true)

/-- Embedding of `CR_SUCCESS`. -/
def CR_SUCCESS : Nat := 0

/-- Embedding of `CR_BUFFER_SMALL` (0x1A). -/
def CR_BUFFER_SMALL : Nat := 26

/-- Responses of the platform's two-phase property protocol for one
fixed subject (interface path or devnode) and property key: `phase1` is
the size query with a null buffer, returning `(cr, property_type,
len)`; `phase2 len` is the fetch into a buffer of `len` bytes,
returning `(cr, len_after_call, bytes_written)`. -/
structure PropertyOracle where
  phase1 : Nat × Nat × Nat
  phase2 : Nat → Nat × Nat × List Nat

/-- Embedding of `get_device_interface_property` (src lines 703-731):
unless phase 1 reports `CR_BUFFER_SMALL` with the expected property
type, the fetch yields absence.  Otherwise phase 2 runs; the source's
`assert_eq!(property_value.len(), len as usize)` — a panic — is the
`Except` error, a phase-2 status other than `CR_SUCCESS` again yields
absence, and otherwise the fetched bytes are returned. -/
def get_device_interface_property (o : PropertyOracle) (expected_property_type : Nat) :
    Except Unit (Option (List Nat)) :=
  let cr := o.phase1.1
  let property_type := o.phase1.2.1
  let len := o.phase1.2.2
  if cr = CR_BUFFER_SMALL ∧ property_type = expected_property_type then
    let r := o.phase2 len
    if len ≠ r.2.1 then .error ()
    else if r.1 ≠ CR_SUCCESS then .ok none
    else .ok (some r.2.2)
  else .ok none

/-- Embedding of `get_devnode_property` (src lines 733-761), identical
two-phase protocol as `get_device_interface_property` but over the
devnode platform call. -/
def get_devnode_property (o : PropertyOracle) (expected_property_type : Nat) :
    Except Unit (Option (List Nat)) :=
  let cr := o.phase1.1
  let property_type := o.phase1.2.1
  let len := o.phase1.2.2
  if cr = CR_BUFFER_SMALL ∧ property_type = expected_property_type then
    let r := o.phase2 len
    if len ≠ r.2.1 then .error ()
    else if r.1 ≠ CR_SUCCESS then .ok none
    else .ok (some r.2.2)
  else .ok none

/-- Spec-side characterisation used for C8: the hex-digit values of the
longest run of hexadecimal-digit code units at the head of a list. -/
def hexRunOf (l : List Nat) : List Nat :=
  (l.takeWhile (fun u => (to_digit16 u).isSome)).map (fun u => (to_digit16 u).getD 0)

/-- Spec-side (C7): the `REV_` values found across entries, in order,
each uppercased first and truncated `as u16` as the loop records them. -/
def rev_values (entries : List (List Nat)) : List Nat :=
  entries.filterMap
    (fun e => (extract_int_token_value (to_upper e) strREV).map (fun v => v % 65536))

/-- Spec-side (C7): the `MI_` values found across entries, in order,
each uppercased first and cast `as i32` as the loop records them. -/
def mi_values (entries : List (List Nat)) : List Int :=
  entries.filterMap
    (fun e => (extract_int_token_value (to_upper e) strMI).map u32AsI32)

/-- Modelled from the spec: the serial-number extraction §4.6 step 4
describes — "take the node's instance-id, and extract the substring
after the final path-separator-delimited segment" — i.e. the units
after the last backslash (92).  This matches the code's own comment
(src lines 237-240) and is compared against `serial_start` for C4. -/
def spec_serial_of (device_id : List Nat) : Option (List Nat) :=
  (rposition device_id (fun c => c = 92)).map (fun i => device_id.drop (i + 1))

/-- Spec-side (C6/C10): a genuine case-insensitive starts-with — the
decoded haystack must be at least as long as the pattern and match it
pointwise ASCII-case-insensitively on the pattern's full length. -/
def genuineStartsWith (id pattern : List Nat) : Bool :=
  decide (pattern.length ≤ (decodeUtf16Lossy id).length) &&
    ((decodeUtf16Lossy id).zip pattern).all (fun p => eqIgnoreAsciiCase p.1 p.2)

/-- The classifier table's five patterns, in source order. -/
def knownPatterns : List (List Nat) := [strUSB, strBTHENUM, strBTHLEDEVICE, strPNP0C50, strPNP0C51]

/-- A `DeviceInfo` as `get_device_info` initialises it when the
fast-path queries return nothing: empty strings, release 0,
interface -1, bus Unknown (src lines 124-136). -/
def freshDevice : DeviceInfo :=
  ⟨[], 0, 0, .String [], 0, .String [], .String [], 0, 0, -1, .Unknown⟩

/-- A platform on which every call fails. -/
def emptyPlatform : Platform :=
  ⟨fun _ => none, fun _ => none, fun _ => none, fun _ => none, fun _ => none, fun _ => none,
   fun _ => none, fun _ => none, fun _ => none, fun _ => none, fun _ => none⟩

/-- UTF-16 units of "ACME". -/
def strACME : List Nat := [65, 67, 77, 69]

/-- UTF-16 units of the instance id `USB\VID_1234\SER123`. -/
def c4InstanceId : List Nat :=
  [85, 83, 66, 92, 86, 73, 68, 95, 49, 50, 51, 52, 92, 83, 69, 82, 49, 50, 51]

/-- UTF-16 units of "SER123". -/
def strSER123 : List Nat := [83, 69, 82, 49, 50, 51]

/-- Platform for the C1 counterexample: the walk to the owning node
succeeds and its compatible-id list is `BTHLEDEVICE\0`. -/
def pfC1 : Platform :=
  { emptyPlatform with
    iface_instance_id := fun _ => some [65],
    locate := fun _ => some 1,
    parent := fun _ => some 2,
    compatible_ids := fun _ => some (strBTHLEDEVICE ++ [0]) }

/-- Platform for the C2 counterexample: a USB-classified device whose
hardware-id list cannot be fetched. -/
def pfC2 : Platform :=
  { emptyPlatform with
    iface_instance_id := fun _ => some [65],
    locate := fun _ => some 1,
    parent := fun _ => some 2,
    compatible_ids := fun _ => some (strUSB ++ [0]),
    instance_id := fun _ => some strUSB }

/-- Platform for the C3 counterexample: hardware-id fetch fails while a
manufacturer property is available. -/
def pfC3 : Platform :=
  { emptyPlatform with
    instance_id := fun _ => some strUSB,
    manufacturer := fun _ => some strACME }

/-- The C3 platform with the hardware-id fetch succeeding (empty list),
showing the manufacturer step does run when step 2 does not abort. -/
def pfC3ok : Platform :=
  { pfC3 with hardware_ids := fun _ => some [] }

/-- Platform for the C4 evaluation: the instance-id of the queried node
is `USB\VID_1234\SER123`. -/
def pfC4 : Platform :=
  { emptyPlatform with instance_id := fun _ => some c4InstanceId }

/-- Platform for the C6 counterexample: the owning node's compatible-id
list is `X\0` — no entry genuinely starts with a known pattern, but the
trailing empty entry matches USB under the truncated comparison. -/
def pfC6 : Platform :=
  { emptyPlatform with
    iface_instance_id := fun _ => some [65],
    locate := fun _ => some 1,
    parent := fun _ => some 2,
    compatible_ids := fun _ => some [88, 0] }

/-- Platform for the C2 witness: everything the USB resolver touches
succeeds, so it runs to completion. -/
def pfUsbOk : Platform :=
  { emptyPlatform with
    instance_id := fun _ => some strUSB,
    hardware_ids := fun _ => some [] }

/-- Oracle for the C9 witness: the size query reports `CR_SUCCESS`
(not `CR_BUFFER_SMALL`). -/
def oracleC9 : PropertyOracle := ⟨(0, 5, 10), fun _ => (0, 10, [])⟩

/-- The hardware-id list `REV_00\0REV_12\0` for the C7 counterexample. -/
def c7HardwareIds : List Nat :=
  strREV ++ [48, 48] ++ [0] ++ strREV ++ [49, 50] ++ [0]

/-! ## Helper lemmas -/

/-- Values ≥ 103 (past ASCII `f`) are never hexadecimal digits. -/
theorem to_digit16_none_of_ge (c : Nat) (h : 103 ≤ c) : to_digit16 c = none := by
  unfold to_digit16
  rw [if_neg (by omega), if_neg (by omega), if_neg (by omega)]

/-- Unfolding equation of `decodeUtf16` on a single unit. -/
theorem decodeUtf16_one (u : Nat) :
    decodeUtf16 [u] = if u < 55296 ∨ 57343 < u then [.ok u] else [.error u] := rfl

/-- Unfolding equation of `decodeUtf16` on two or more units. -/
theorem decodeUtf16_cons2 (u v : Nat) (rest : List Nat) :
    decodeUtf16 (u :: v :: rest) =
      (if u < 55296 ∨ 57343 < u then .ok u :: decodeUtf16 (v :: rest)
       else if 56320 ≤ u then .error u :: decodeUtf16 (v :: rest)
       else if 56320 ≤ v ∧ v ≤ 57343 then
         .ok (65536 + (u - 55296) * 1024 + (v - 56320)) :: decodeUtf16 rest
       else .error u :: decodeUtf16 (v :: rest)) := rfl

/-- A decode error stops the hex scan. -/
theorem mapWhileHex_err (e : Nat) (t : List (Except Nat Nat)) :
    mapWhileHex (.error e :: t) = [] := rfl

/-- A non-hex scalar stops the hex scan. -/
theorem mapWhileHex_ok_none (c : Nat) (t : List (Except Nat Nat))
    (h : to_digit16 c = none) : mapWhileHex (.ok c :: t) = [] := by
  rw [show mapWhileHex (.ok c :: t) =
        (match to_digit16 c with | some d => d :: mapWhileHex t | none => []) from rfl, h]

/-- A hex scalar contributes its value and the scan continues. -/
theorem mapWhileHex_ok_some (c d : Nat) (t : List (Except Nat Nat))
    (h : to_digit16 c = some d) : mapWhileHex (.ok c :: t) = d :: mapWhileHex t := by
  rw [show mapWhileHex (.ok c :: t) =
        (match to_digit16 c with | some d => d :: mapWhileHex t | none => []) from rfl, h]

/-- Unfolding of `hexRunOf` on a non-hex head unit. -/
theorem hexRunOf_cons_none (u : Nat) (t : List Nat) (h : to_digit16 u = none) :
    hexRunOf (u :: t) = [] := by
  unfold hexRunOf
  rw [List.takeWhile_cons, h]
  rfl

/-- Unfolding of `hexRunOf` on a hex head unit. -/
theorem hexRunOf_cons_some (u d : Nat) (t : List Nat) (h : to_digit16 u = some d) :
    hexRunOf (u :: t) = d :: hexRunOf t := by
  unfold hexRunOf
  rw [List.takeWhile_cons, h]
  simp [h]

/-- The decode-then-scan pipeline of `extract_int_token_value` consumes
exactly the longest head run of hexadecimal-digit code units: surrogates
(paired or not) and non-hex scalars all stop the scan, matching a plain
`takeWhile` over the raw units. -/
theorem mapWhileHex_decode : ∀ (l : List Nat), mapWhileHex (decodeUtf16 l) = hexRunOf l
  | [] => rfl
  | [u] => by
    rw [decodeUtf16_one]
    by_cases h : u < 55296 ∨ 57343 < u
    · rw [if_pos h]
      cases hd : to_digit16 u with
      | none => rw [mapWhileHex_ok_none u [] hd, hexRunOf_cons_none u [] hd]
      | some d =>
        rw [mapWhileHex_ok_some u d [] hd, hexRunOf_cons_some u d [] hd]
        rfl
    · rw [if_neg h]
      have hu : 103 ≤ u := by
        rcases Nat.lt_or_ge u 55296 with h1 | h1
        · exact absurd (Or.inl h1) h
        · omega
      rw [mapWhileHex_err, hexRunOf_cons_none u [] (to_digit16_none_of_ge u hu)]
  | u :: v :: rest => by
    rw [decodeUtf16_cons2]
    by_cases h1 : u < 55296 ∨ 57343 < u
    · rw [if_pos h1]
      cases hd : to_digit16 u with
      | none =>
        rw [mapWhileHex_ok_none u _ hd, hexRunOf_cons_none u _ hd]
      | some d =>
        rw [mapWhileHex_ok_some u d _ hd, hexRunOf_cons_some u d _ hd,
          mapWhileHex_decode (v :: rest)]
    · rw [if_neg h1]
      have hu : 103 ≤ u := by
        rcases Nat.lt_or_ge u 55296 with hx | hx
        · exact absurd (Or.inl hx) h1
        · omega
      have hnu : to_digit16 u = none := to_digit16_none_of_ge u hu
      by_cases h2 : 56320 ≤ u
      · rw [if_pos h2, mapWhileHex_err, hexRunOf_cons_none u _ hnu]
      · rw [if_neg h2]
        by_cases h3 : 56320 ≤ v ∧ v ≤ 57343
        · rw [if_pos h3,
            mapWhileHex_ok_none _ _ (to_digit16_none_of_ge _ (by omega)),
            hexRunOf_cons_none u _ hnu]
        · rw [if_neg h3, mapWhileHex_err, hexRunOf_cons_none u _ hnu]

/-- Characterisation of `find?` over `range`: it yields `some i` exactly
when `i` is the least index satisfying the predicate. -/
theorem find_range_eq_some (p : Nat → Bool) :
    ∀ (n i : Nat), (List.range n).find? p = some i ↔
      (i < n ∧ p i = true ∧ ∀ j, j < i → p j = false) := by
  intro n
  induction n with
  | zero => intro i; simp
  | succ n ih =>
    intro i
    rw [List.range_succ, List.find?_append]
    cases hfind : List.find? p (List.range n) with
    | some k =>
      obtain ⟨hk1, hk2, hk3⟩ := (ih k).mp hfind
      rw [show (some k).or (List.find? p [n]) = some k from rfl]
      constructor
      · intro h
        injection h with h
        subst h
        exact ⟨by omega, hk2, hk3⟩
      · rintro ⟨hin, hpi, hmin⟩
        rcases Nat.lt_or_ge i n with hlt | hge
        · have := (ih i).mpr ⟨hlt, hpi, hmin⟩
          rw [hfind] at this
          exact this
        · exfalso
          have hik : k < i := by omega
          have := hmin k hik
          rw [hk2] at this
          cases this
    | none =>
      rw [show (Option.none).or (List.find? p [n]) = List.find? p [n] from rfl]
      have hnone := List.find?_eq_none.mp hfind
      cases hpn : p n with
      | true =>
        rw [List.find?_cons, hpn]
        constructor
        · intro h
          injection h with h
          subst h
          refine ⟨by omega, hpn, fun j hj => ?_⟩
          have := hnone j (List.mem_range.mpr hj)
          simpa using this
        · rintro ⟨hin, hpi, hmin⟩
          have : i = n := by
            rcases Nat.lt_or_ge i n with hlt | hge
            · exact absurd hpi (hnone i (List.mem_range.mpr hlt))
            · omega
          subst this
          rfl
      | false =>
        rw [List.find?_cons, hpn, List.find?_nil]
        constructor
        · intro h; cases h
        · rintro ⟨hin, hpi, hmin⟩
          rcases Nat.lt_or_ge i n with hlt | hge
          · exact absurd hpi (hnone i (List.mem_range.mpr hlt))
          · have : i = n := by omega
            subst this
            rw [hpn] at hpi
            cases hpi

/-- Release-number projection of one hardware-id loop iteration. -/
theorem scan_entry_release (dev : DeviceInfo) (e : List Nat) :
    (scan_entry dev e).release_number =
      (if dev.release_number = 0 then
        (match extract_int_token_value (to_upper e) strREV with
         | some v => v % 65536
         | none => dev.release_number)
       else dev.release_number) := by
  unfold scan_entry
  by_cases hr : dev.release_number = 0 <;>
    cases hx : extract_int_token_value (to_upper e) strREV <;>
      by_cases hi : dev.interface_number = -1 <;>
        cases hxm : extract_int_token_value (to_upper e) strMI <;>
          simp [hr, hi, hx, hxm]

/-- Interface-number projection of one hardware-id loop iteration. -/
theorem scan_entry_interface (dev : DeviceInfo) (e : List Nat) :
    (scan_entry dev e).interface_number =
      (if dev.interface_number = -1 then
        (match extract_int_token_value (to_upper e) strMI with
         | some v => u32AsI32 v
         | none => dev.interface_number)
       else dev.interface_number) := by
  unfold scan_entry
  by_cases hr : dev.release_number = 0 <;>
    cases hx : extract_int_token_value (to_upper e) strREV <;>
      by_cases hi : dev.interface_number = -1 <;>
        cases hxm : extract_int_token_value (to_upper e) strMI <;>
          simp [hr, hi, hx, hxm]

/-- One hardware-id loop iteration touches only release and interface
numbers. -/
theorem scan_entry_keeps (dev : DeviceInfo) (e : List Nat) :
    (scan_entry dev e).bus_type = dev.bus_type ∧
    (scan_entry dev e).serial_number = dev.serial_number ∧
    (scan_entry dev e).manufacturer_string = dev.manufacturer_string := by
  unfold scan_entry
  by_cases hr : dev.release_number = 0 <;>
    cases hx : extract_int_token_value (to_upper e) strREV <;>
      by_cases hi : dev.interface_number = -1 <;>
        cases hxm : extract_int_token_value (to_upper e) strMI <;>
          simp [hr, hi, hx, hxm]

/-- The hardware-id loop touches only release and interface numbers. -/
theorem scan_keeps :
    ∀ (entries : List (List Nat)) (dev : DeviceInfo),
      (scan_hardware_ids dev entries).bus_type = dev.bus_type ∧
      (scan_hardware_ids dev entries).serial_number = dev.serial_number ∧
      (scan_hardware_ids dev entries).manufacturer_string = dev.manufacturer_string := by
  intro entries
  induction entries with
  | nil => intro dev; exact ⟨rfl, rfl, rfl⟩
  | cons e es ih =>
    intro dev
    obtain ⟨h1, h2, h3⟩ := ih (scan_entry dev e)
    obtain ⟨g1, g2, g3⟩ := scan_entry_keeps dev e
    exact ⟨h1.trans g1, h2.trans g2, h3.trans g3⟩

/-- The manufacturer fallback touches only the manufacturer string. -/
theorem usb_manufacturer_step_keeps (pf : Platform) (dev : DeviceInfo) (dev_node : Nat) :
    (usb_manufacturer_step pf dev dev_node).bus_type = dev.bus_type ∧
    (usb_manufacturer_step pf dev dev_node).serial_number = dev.serial_number ∧
    (usb_manufacturer_step pf dev dev_node).interface_number = dev.interface_number ∧
    (usb_manufacturer_step pf dev dev_node).release_number = dev.release_number := by
  unfold usb_manufacturer_step
  by_cases hm : isUnsetOrEmpty dev.manufacturer_string <;>
    cases hp : pf.manufacturer dev_node <;> simp [hm, hp]

/-- When the serial fallback does not abort, it touches only the serial
number. -/
theorem usb_serial_step_keeps (pf : Platform) (dev d' : DeviceInfo) (dev_node : Nat)
    (h : usb_serial_step pf dev dev_node = some d') :
    d'.bus_type = dev.bus_type ∧
    d'.interface_number = dev.interface_number ∧
    d'.release_number = dev.release_number ∧
    d'.manufacturer_string = dev.manufacturer_string := by
  unfold usb_serial_step at h
  repeat' split at h
  all_goals first
    | exact Option.noConfusion h
    | (injection h with h; subst h; exact ⟨rfl, rfl, rfl, rfl⟩)

/-- The final normalisation touches only the interface number, setting
it to 0 exactly when it was still -1. -/
theorem normalize_interface_keeps (dev : DeviceInfo) :
    (normalize_interface dev).bus_type = dev.bus_type ∧
    (normalize_interface dev).serial_number = dev.serial_number ∧
    (normalize_interface dev).release_number = dev.release_number ∧
    (normalize_interface dev).manufacturer_string = dev.manufacturer_string ∧
    (normalize_interface dev).interface_number =
      (if dev.interface_number = -1 then 0 else dev.interface_number) := by
  unfold normalize_interface
  by_cases hi : dev.interface_number = -1 <;> simp [hi]

/-- After normalisation the interface number is never -1. -/
theorem normalize_interface_ne (dev : DeviceInfo) :
    (normalize_interface dev).interface_number ≠ -1 := by
  unfold normalize_interface
  split
  · simp
  · assumption

/-- Every run of the USB resolver either aborts early (completion flag
false) or ends in the interface normalisation. -/
theorem get_usb_info_false_or_ne (pf : Platform) (dev : DeviceInfo) (dev_node : Nat) :
    (get_usb_info pf dev dev_node).2 = false ∨
    (get_usb_info pf dev dev_node).1.interface_number ≠ -1 := by
  unfold get_usb_info
  cases h1 : pf.instance_id dev_node with
  | none => simp
  | some device_id =>
    cases h2 : usb_xbox_node pf (to_upper device_id) dev_node with
    | none => simp [h2]
    | some node2 =>
      cases h3 : pf.hardware_ids node2 with
      | none => simp [h2, h3]
      | some hw =>
        cases h4 : usb_serial_step pf
            (usb_manufacturer_step pf (scan_hardware_ids dev (hw.splitOn 0)) node2) node2 with
        | none => simp [h2, h3, h4]
        | some dev3 => simp [h2, h3, h4, normalize_interface_ne]

/-- The USB resolver never changes the bus type, whether or not it runs
to completion. -/
theorem get_usb_info_bus (pf : Platform) (dev : DeviceInfo) (dev_node : Nat) :
    (get_usb_info pf dev dev_node).1.bus_type = dev.bus_type := by
  unfold get_usb_info
  cases h1 : pf.instance_id dev_node with
  | none => rfl
  | some device_id =>
    dsimp only
    cases h2 : usb_xbox_node pf (to_upper device_id) dev_node with
    | none => rfl
    | some node2 =>
      dsimp only
      cases h3 : pf.hardware_ids node2 with
      | none => rfl
      | some hw =>
        dsimp only
        cases h4 : usb_serial_step pf
            (usb_manufacturer_step pf (scan_hardware_ids dev (hw.splitOn 0)) node2) node2 with
        | none =>
          dsimp only
          exact ((usb_manufacturer_step_keeps pf _ node2).1).trans (scan_keeps _ dev).1
        | some d3 =>
          dsimp only
          exact (normalize_interface_keeps d3).1.trans
            (((usb_serial_step_keeps pf _ d3 node2 h4).1).trans
              (((usb_manufacturer_step_keeps pf _ node2).1).trans (scan_keeps _ dev).1))

/-- The BLE resolver never changes the bus type. -/
theorem get_ble_info_bus (pf : Platform) (dev : DeviceInfo) (dev_node : Nat) :
    (get_ble_info pf dev dev_node).bus_type = dev.bus_type := by
  unfold get_ble_info
  dsimp only
  repeat' split
  all_goals rfl

/-- The serial fallback is a congruence in the fields it reads: two
platforms agreeing on `parent` and `instance_id`, applied to records
agreeing on serial, interface and release, produce the same abort
behaviour and the same serial/interface/release projections. -/
theorem usb_serial_step_proj_congr (pf pf' : Platform) (d d' : DeviceInfo) (n : Nat)
    (hpar : pf.parent = pf'.parent) (hinst : pf.instance_id = pf'.instance_id)
    (hs : d.serial_number = d'.serial_number) (hi : d.interface_number = d'.interface_number)
    (hr : d.release_number = d'.release_number) :
    (usb_serial_step pf d n).map (fun x => (x.serial_number, x.interface_number, x.release_number))
      = (usb_serial_step pf' d' n).map
          (fun x => (x.serial_number, x.interface_number, x.release_number)) := by
  unfold usb_serial_step
  rw [hpar, hinst, hs, hi, hr]
  split
  · cases hq : (if d'.interface_number ≠ -1 then pf'.parent n else some n) with
    | none => rfl
    | some u =>
      dsimp only
      cases hid : pf'.instance_id u with
      | none => rfl
      | some did =>
        dsimp only
        cases hss : serial_start did with
        | some s => simp [hs, hi, hr]
        | none => simp [hs, hi, hr]
  · simp [hs, hi, hr]

/-- A pointwise ASCII-case-insensitive match on the common length makes
the zipped comparison succeed. -/
theorem zip_all_of_map_eq :
    ∀ (l p : List Nat), l.map asciiLower = (p.take l.length).map asciiLower →
      ((l.zip p).all fun q => eqIgnoreAsciiCase q.1 q.2) = true := by
  intro l
  induction l with
  | nil => intro p _; rfl
  | cons a t ih =>
    intro p hm
    cases p with
    | nil => simp
    | cons b q =>
      rw [List.length_cons, List.take_succ_cons, List.map_cons, List.map_cons] at hm
      injection hm with h1 h2
      rw [List.zip_cons_cons, List.all_cons, Bool.and_eq_true]
      constructor
      · simp [eqIgnoreAsciiCase, h1]
      · exact ih q h2

/-! ## Claims -/

/-- Claim C1, counterexample: a device whose compatible-id list is
`BTHLEDEVICE\0` — so its first matching entry starts with BTHLEDEVICE —
is emitted with bus type Bluetooth (the classic value), not BluetoothLE,
even though the BLE identity resolver is the one dispatched. -/
theorem c1_counterexample :
    (get_internal_info pfC1 [] freshDevice).1.bus_type = BusType.Bluetooth ∧
    (get_internal_info pfC1 [] freshDevice).2.1 = ResolverRan.ble ∧
    BusType.Bluetooth ≠ BusType.BluetoothLE := by decide

/-- Claim C1, amended: whenever the compatible-id scan classifies a
device as (internal) BluetoothLE, the emitted bus type is
`BusType.Bluetooth` — the `From` conversion collapses the internal
BluetoothLE class into the classic Bluetooth value. -/
theorem c1_ble_emits_bluetooth (compatible_ids : List Nat)
    (h : classify_compatible_ids compatible_ids = InternalBuyType.BluetoothLE) :
    busTypeOfInternal (classify_compatible_ids compatible_ids) = BusType.Bluetooth := by
  rw [h]; rfl

/-- Witness for C1's amended theorem at the list `BTHLEDEVICE\0`. -/
theorem c1_witness :
    classify_compatible_ids (strBTHLEDEVICE ++ [0]) = InternalBuyType.BluetoothLE ∧
    busTypeOfInternal (classify_compatible_ids (strBTHLEDEVICE ++ [0])) = BusType.Bluetooth :=
  ⟨by decide, c1_ble_emits_bluetooth _ (by decide)⟩

/-- Claim C2, counterexample: a USB-classified device whose hardware-id
list cannot be fetched aborts the USB resolver before the final
normalisation, so the emitted record keeps interface_number -1. -/
theorem c2_counterexample :
    (get_internal_info pfC2 [] freshDevice).1.bus_type = BusType.Usb ∧
    (get_internal_info pfC2 [] freshDevice).2.1 = ResolverRan.usb ∧
    (get_internal_info pfC2 [] freshDevice).1.interface_number = -1 := by decide

/-- Claim C2, amended: whenever the USB resolver runs to completion (no
early abort), the resulting interface number is never -1 — it is
normalised to 0 at the very end if still unresolved.  (The
counterexample shows an early abort can leave it at -1.) -/
theorem c2_interface_normalized_on_completion (pf : Platform) (dev : DeviceInfo)
    (dev_node : Nat) (h : (get_usb_info pf dev dev_node).2 = true) :
    (get_usb_info pf dev dev_node).1.interface_number ≠ -1 := by
  rcases get_usb_info_false_or_ne pf dev dev_node with hf | hne
  · rw [hf] at h; cases h
  · exact hne

/-- Witness for C2's amended theorem on a platform where the resolver
completes. -/
theorem c2_witness :
    (get_usb_info pfUsbOk freshDevice 0).2 = true ∧
    (get_usb_info pfUsbOk freshDevice 0).1.interface_number ≠ -1 :=
  ⟨by decide, c2_interface_normalized_on_completion pfUsbOk freshDevice 0 (by decide)⟩

/-- Claim C3, counterexample: with an absent hardware-id list (step 2)
but an available manufacturer property, the resolver aborts early and
the manufacturer fallback (step 3) never runs — the manufacturer string
stays empty, though the same device on a platform where step 2 succeeds
does get the manufacturer filled in. -/
theorem c3_counterexample :
    (get_usb_info pfC3 freshDevice 0).1.manufacturer_string = WcharString.String [] ∧
    (get_usb_info pfC3 freshDevice 0).2 = false ∧
    (get_usb_info pfC3ok freshDevice 0).1.manufacturer_string = WcharString.String strACME := by
  decide

/-- Claim C3, amended: step 3 (the manufacturer fallback) is
independently skippable — the manufacturer property has no effect on
completion or on the serial-number, interface-number and release-number
outcomes of steps 4 and 5.  (Failures in steps 1, 2, or in step 4's
parent/instance-id lookups abort the remaining steps, per the
counterexample.) -/
theorem c3_manufacturer_independent (pf pf' : Platform) (dev : DeviceInfo) (dev_node : Nat)
    (hinst : pf.instance_id = pf'.instance_id)
    (hpar : pf.parent = pf'.parent)
    (hhw : pf.hardware_ids = pf'.hardware_ids) :
    (get_usb_info pf dev dev_node).2 = (get_usb_info pf' dev dev_node).2 ∧
    (get_usb_info pf dev dev_node).1.serial_number
      = (get_usb_info pf' dev dev_node).1.serial_number ∧
    (get_usb_info pf dev dev_node).1.interface_number
      = (get_usb_info pf' dev dev_node).1.interface_number ∧
    (get_usb_info pf dev dev_node).1.release_number
      = (get_usb_info pf' dev dev_node).1.release_number := by
  have hxf : usb_xbox_node pf = usb_xbox_node pf' := by
    funext did n
    unfold usb_xbox_node
    rw [hpar]
  unfold get_usb_info
  rw [hinst, hhw, hxf]
  cases h1 : pf'.instance_id dev_node with
  | none => exact ⟨rfl, rfl, rfl, rfl⟩
  | some id =>
    dsimp only
    cases h2 : usb_xbox_node pf' (to_upper id) dev_node with
    | none => exact ⟨rfl, rfl, rfl, rfl⟩
    | some n2 =>
      dsimp only
      cases h3 : pf'.hardware_ids n2 with
      | none => exact ⟨rfl, rfl, rfl, rfl⟩
      | some hw =>
        dsimp only
        obtain ⟨k1, k2, k3, k4⟩ :=
          usb_manufacturer_step_keeps pf (scan_hardware_ids dev (hw.splitOn 0)) n2
        obtain ⟨k1', k2', k3', k4'⟩ :=
          usb_manufacturer_step_keeps pf' (scan_hardware_ids dev (hw.splitOn 0)) n2
        have hcong := usb_serial_step_proj_congr pf pf'
          (usb_manufacturer_step pf (scan_hardware_ids dev (hw.splitOn 0)) n2)
          (usb_manufacturer_step pf' (scan_hardware_ids dev (hw.splitOn 0)) n2)
          n2 hpar hinst (k2.trans k2'.symm) (k3.trans k3'.symm) (k4.trans k4'.symm)
        cases h4 : usb_serial_step pf
            (usb_manufacturer_step pf (scan_hardware_ids dev (hw.splitOn 0)) n2) n2 with
        | none =>
          cases h4' : usb_serial_step pf'
              (usb_manufacturer_step pf' (scan_hardware_ids dev (hw.splitOn 0)) n2) n2 with
          | none =>
            dsimp only
            exact ⟨rfl, k2.trans k2'.symm, k3.trans k3'.symm, k4.trans k4'.symm⟩
          | some z =>
            rw [h4, h4'] at hcong
            simp at hcong
        | some z =>
          cases h4' : usb_serial_step pf'
              (usb_manufacturer_step pf' (scan_hardware_ids dev (hw.splitOn 0)) n2) n2 with
          | none =>
            rw [h4, h4'] at hcong
            simp at hcong
          | some z' =>
            rw [h4, h4'] at hcong
            simp at hcong
            obtain ⟨e1, e2, e3⟩ := hcong
            dsimp only
            obtain ⟨n1, n2a, n3, n4, n5⟩ := normalize_interface_keeps z
            obtain ⟨m1, m2a, m3, m4, m5⟩ := normalize_interface_keeps z'
            refine ⟨rfl, ?_, ?_, ?_⟩
            · rw [n2a, m2a, e1]
            · rw [n5, m5, e2]
            · rw [n3, m3, e3]

/-- Witness for C3's amended theorem: removing the manufacturer property
from the working platform changes none of the compared outcomes. -/
theorem c3_witness :
    (get_usb_info pfC3ok freshDevice 0).2
      = (get_usb_info { pfC3ok with manufacturer := fun _ => none } freshDevice 0).2 ∧
    (get_usb_info pfC3ok freshDevice 0).1.serial_number
      = (get_usb_info { pfC3ok with manufacturer := fun _ => none } freshDevice 0).1.serial_number ∧
    (get_usb_info pfC3ok freshDevice 0).1.interface_number
      = (get_usb_info { pfC3ok with manufacturer := fun _ => none }
          freshDevice 0).1.interface_number ∧
    (get_usb_info pfC3ok freshDevice 0).1.release_number
      = (get_usb_info { pfC3ok with manufacturer := fun _ => none }
          freshDevice 0).1.release_number :=
  c3_manufacturer_independent pfC3ok { pfC3ok with manufacturer := fun _ => none }
    freshDevice 0 rfl rfl rfl

/-- Claim C4: the serial extraction of `get_usb_info` contradicts both
the spec and the code's own comment ("Extract substring after last
backslash of Instance ID").  On the instance id `USB\VID_1234\SER123`
the code's `rsplit`-on-every-non-ampersand scan selects the (empty)
trailing run of `&` units, `rposition` finds nothing, and the serial
number is left untouched, where the spec-modelled extraction yields
`SER123`. -/
theorem c4_serial_extraction_bug :
    serial_start c4InstanceId = none ∧
    spec_serial_of c4InstanceId = some strSER123 ∧
    usb_serial_step pfC4 freshDevice 0 = some freshDevice := by decide

/-- Claim C5, counterexample: the haystack `rev_` contains the token
`REV_` in lower case, yet `find_first_upper_case` returns absence —
the function compares code units exactly and is not case-insensitive
(uppercasing the haystack first makes the same call succeed). -/
theorem c5_counterexample :
    find_first_upper_case [114, 101, 118, 95] strREV = none ∧
    find_first_upper_case (to_upper [114, 101, 118, 95]) strREV = some 0 := by decide

/-- Claim C5, amended: `find_first_upper_case` is a first-occurrence,
exact-width window match that is case-sensitive: it returns `some i`
exactly when the window of the pattern's width at `i` equals the
pattern's code units exactly and no earlier window does; it returns
absence exactly when no window matches exactly. -/
theorem c5_find_first_characterization (u16str pattern : List Nat) (i : Nat)
    (_hpat : 0 < pattern.length) :
    find_first_upper_case u16str pattern = some i ↔
      (i + pattern.length ≤ u16str.length ∧
       (u16str.drop i).take pattern.length = pattern ∧
       ∀ j, j < i → (u16str.drop j).take pattern.length ≠ pattern) := by
  unfold find_first_upper_case
  rw [find_range_eq_some]
  constructor
  · rintro ⟨hin, hp, hmin⟩
    refine ⟨by omega, by simpa using hp, fun j hj => by simpa using hmin j hj⟩
  · rintro ⟨hlen, heq, hne⟩
    exact ⟨by omega, by simpa using heq, fun j hj => by simpa using hne j hj⟩

/-- Witness for C5's amended theorem: the token `REV_` occurs exactly at
index 1 of `XREV_1`. -/
theorem c5_witness :
    0 < strREV.length ∧ find_first_upper_case [88, 82, 69, 86, 95, 49] strREV = some 1 :=
  ⟨by decide,
   (c5_find_first_characterization [88, 82, 69, 86, 95, 49] strREV 1 (by decide)).mpr
     ⟨by decide, by decide,
      fun j hj => by
        have : j = 0 := by omega
        subst this
        decide⟩⟩

/-- Claim C6, counterexample: in the compatible-id list `X\0` no
null-separated entry genuinely starts (case-insensitively) with any of
the five known patterns, yet the device classifies as Usb — the
trailing empty entry matches `USB` under the truncated zipped
comparison — and the USB resolver runs. -/
theorem c6_counterexample :
    (([88, 0] : List Nat).splitOn 0).all
      (fun e => knownPatterns.all (fun pat => !(genuineStartsWith e pat))) = true ∧
    classify_compatible_ids [88, 0] = InternalBuyType.Usb ∧
    (get_internal_info pfC6 [] freshDevice).1.bus_type = BusType.Usb ∧
    (get_internal_info pfC6 [] freshDevice).2.1 = ResolverRan.usb := by decide

/-- Claim C6, amended: when the bus type resolves to Unknown — because
the property chain failed or because no entry matched under the code's
truncated comparison — neither the USB nor the BLE resolver runs; and
whenever no entry matches under `starts_with_ignore_case` (which counts
proper-prefix haystacks, including empty entries, as matches), the
class is Unknown.  The first matching entry in original order otherwise
decides the class. -/
theorem c6_unknown_skips_resolvers :
    (∀ (pf : Platform) (interface_path : List Nat) (dev : DeviceInfo),
      dev.bus_type = BusType.Unknown →
      (get_internal_info pf interface_path dev).1.bus_type = BusType.Unknown →
      (get_internal_info pf interface_path dev).2.1 = ResolverRan.skipped) ∧
    (∀ compatible_ids : List Nat,
      ((compatible_ids.splitOn 0).all (fun e => (matchEntry e).isNone)) = true →
      classify_compatible_ids compatible_ids = InternalBuyType.Unknown) := by
  constructor
  · intro pf interface_path dev hdev hbus
    unfold get_internal_info at hbus ⊢
    cases h1 : pf.iface_instance_id interface_path with
    | none => rfl
    | some device_id =>
      rw [h1] at hbus
      dsimp only at hbus ⊢
      cases h2 : pf.locate device_id with
      | none => rfl
      | some node =>
        rw [h2] at hbus
        dsimp only at hbus ⊢
        cases h3 : pf.parent node with
        | none => rfl
        | some dev_node =>
          rw [h3] at hbus
          dsimp only at hbus ⊢
          cases h4 : pf.compatible_ids dev_node with
          | none => rfl
          | some cids =>
            rw [h4] at hbus
            dsimp only at hbus ⊢
            cases h5 : classify_compatible_ids cids with
            | Unknown => rfl
            | Usb =>
              exfalso
              rw [h5] at hbus
              dsimp only at hbus
              rw [get_usb_info_bus] at hbus
              simp [busTypeOfInternal] at hbus
            | Bluetooth => rfl
            | BluetoothLE =>
              exfalso
              rw [h5] at hbus
              dsimp only at hbus
              rw [get_ble_info_bus] at hbus
              simp [busTypeOfInternal] at hbus
            | I2c => rfl
            | Spi => rfl
  · intro compatible_ids hall
    unfold classify_compatible_ids
    have : (compatible_ids.splitOn 0).filterMap matchEntry = [] := by
      rw [List.filterMap_eq_nil_iff]
      intro e he
      have := (List.all_eq_true.mp hall) e he
      exact Option.isNone_iff_eq_none.mp this
    rw [this]
    rfl

/-- Witness for C6's amended theorem: the all-failing platform skips
both resolvers, and the single-entry list `Y` classifies as Unknown. -/
theorem c6_witness :
    (get_internal_info emptyPlatform [] freshDevice).2.1 = ResolverRan.skipped ∧
    classify_compatible_ids [89] = InternalBuyType.Unknown :=
  ⟨c6_unknown_skips_resolvers.1 emptyPlatform [] freshDevice (by decide) (by decide),
   c6_unknown_skips_resolvers.2 [89] (by decide)⟩

/-- Claim C7, counterexample: in the hardware-id list
`REV_00\0REV_12\0` the first entry carrying a `REV_` hex token yields
the value 0, which is indistinguishable from the "unset" sentinel, so
the later entry's different value 0x12 overrides it — first-hit-wins
fails when the first hit is zero. -/
theorem c7_counterexample :
    extract_int_token_value (to_upper (strREV ++ [48, 48])) strREV = some 0 ∧
    (scan_hardware_ids freshDevice (c7HardwareIds.splitOn 0)).release_number = 18 ∧
    (18 : Nat) ≠ 0 := by decide

/-- Claim C7, amended: across the hardware-id entries, release_number is
determined by the first found `REV_` value (truncated `as u16`) that is
nonzero — once nonzero it is never overridden, but zero-valued hits
leave the field "unset" and overridable; symmetrically,
interface_number is determined by the first found `MI_` value whose
`as i32` cast differs from the sentinel -1. -/
theorem c7_first_hit_characterization :
    ∀ (entries : List (List Nat)) (dev : DeviceInfo),
      (scan_hardware_ids dev entries).release_number =
        (if dev.release_number = 0 then ((rev_values entries).find? (fun v => v ≠ 0)).getD 0
         else dev.release_number) ∧
      (scan_hardware_ids dev entries).interface_number =
        (if dev.interface_number = -1 then
          ((mi_values entries).find? (fun v => v ≠ -1)).getD (-1)
         else dev.interface_number) := by
  intro entries
  induction entries with
  | nil =>
    intro dev
    constructor
    · show dev.release_number = _
      split
      · next h => simp [rev_values, h]
      · rfl
    · show dev.interface_number = _
      split
      · next h => simp [mi_values, h]
      · rfl
  | cons e es ih =>
    intro dev
    have hstep : scan_hardware_ids dev (e :: es) = scan_hardware_ids (scan_entry dev e) es := rfl
    obtain ⟨ih1, ih2⟩ := ih (scan_entry dev e)
    rw [hstep]
    constructor
    · rw [ih1, scan_entry_release]
      cases hx : extract_int_token_value (to_upper e) strREV with
      | none =>
        have hrv : rev_values (e :: es) = rev_values es := by
          simp [rev_values, List.filterMap_cons, hx]
        rw [hrv]
        by_cases hr : dev.release_number = 0 <;> simp [hr]
      | some v =>
        have hrv : rev_values (e :: es) = (v % 65536) :: rev_values es := by
          simp [rev_values, List.filterMap_cons, hx]
        rw [hrv, List.find?_cons]
        by_cases hr : dev.release_number = 0
        · by_cases hv : v % 65536 = 0
          · simp [hr, hv]
          · simp [hr, hv]
        · simp [hr]
    · rw [ih2, scan_entry_interface]
      cases hx : extract_int_token_value (to_upper e) strMI with
      | none =>
        have hmv : mi_values (e :: es) = mi_values es := by
          simp [mi_values, List.filterMap_cons, hx]
        rw [hmv]
        by_cases hi : dev.interface_number = -1 <;> simp [hi]
      | some v =>
        have hmv : mi_values (e :: es) = u32AsI32 v :: mi_values es := by
          simp [mi_values, List.filterMap_cons, hx]
        rw [hmv, List.find?_cons]
        by_cases hi : dev.interface_number = -1
        · by_cases hv : u32AsI32 v = -1
          · simp [hi, hv]
          · simp [hi, hv]
        · simp [hi]

/-- Claim C8: `extract_int_token_value` finds the token, then greedily
consumes the contiguous run of hexadecimal digits immediately after it
(stopping at the first non-hex character or decode failure), folds them
most-significant-first in base 16 (`u32` arithmetic), and returns
absence when zero digits were consumed; on `MI_02` with token `MI_` it
yields 2, on `MI_` absence, and on `MI_1F` it yields 31. -/
theorem c8_extract_hex_value :
    (∀ (u16str token : List Nat),
      extract_int_token_value u16str token =
        (find_first_upper_case u16str token).bind
          (fun p => reduceHex (hexRunOf (u16str.drop (p + token.length))))) ∧
    extract_int_token_value [77, 73, 95, 48, 50] strMI = some 2 ∧
    extract_int_token_value [77, 73, 95] strMI = none ∧
    extract_int_token_value [77, 73, 95, 49, 70] strMI = some 31 := by
  refine ⟨fun u16str token => ?_, by decide, by decide, by decide⟩
  unfold extract_int_token_value
  cases find_first_upper_case u16str token with
  | none => rfl
  | some p => simp [mapWhileHex_decode]

/-- Claim C9: whenever the first-phase size query reports a status other
than `CR_BUFFER_SMALL` or a property type different from the expected
one, both property fetchers yield absence (`Except.ok none`, not a
panic), regardless of the buffer size the query reported. -/
theorem c9_mismatch_yields_absence (o : PropertyOracle) (expected : Nat)
    (h : o.phase1.1 ≠ CR_BUFFER_SMALL ∨ o.phase1.2.1 ≠ expected) :
    get_device_interface_property o expected = .ok none ∧
    get_devnode_property o expected = .ok none := by
  have hn : ¬(o.phase1.1 = CR_BUFFER_SMALL ∧ o.phase1.2.1 = expected) := by
    rcases h with h | h
    · exact fun hc => h hc.1
    · exact fun hc => h hc.2
  constructor <;> simp [get_device_interface_property, get_devnode_property, hn]

/-- Witness for C9 at an oracle whose size query returns `CR_SUCCESS`. -/
theorem c9_witness :
    get_device_interface_property oracleC9 5 = .ok none ∧
    get_devnode_property oracleC9 5 = .ok none :=
  c9_mismatch_yields_absence oracleC9 5 (Or.inl (by decide))

/-- Claim C10: a haystack strictly shorter than the pattern whose
decoded characters all match the corresponding pattern positions
ASCII-case-insensitively is accepted by `starts_with_ignore_case`: the
zipped comparison truncates to the shorter sequence, so a proper prefix
of a classifier pattern counts as a match. -/
theorem c10_truncated_window_match (utf16str pattern : List Nat)
    (_hlen : (decodeUtf16Lossy utf16str).length < pattern.length)
    (hmatch : (decodeUtf16Lossy utf16str).map asciiLower
      = (pattern.take (decodeUtf16Lossy utf16str).length).map asciiLower) :
    starts_with_ignore_case utf16str pattern = true := by
  unfold starts_with_ignore_case
  exact zip_all_of_map_eq (decodeUtf16Lossy utf16str) pattern hmatch

/-- Witness for C10: `BTHENU` (six units) against the seven-character
pattern `BTHENUM`. -/
theorem c10_witness :
    starts_with_ignore_case [66, 84, 72, 69, 78, 85] strBTHENUM = true :=
  c10_truncated_window_match [66, 84, 72, 69, 78, 85] strBTHENUM (by decide) (by decide)
